import Mathlib

/-
Verification of the Stargazer star-catalog core
(src/stargazer_backend/stargazer-frontend/src/services/StarCatalogService.ts).

Shallow embedding conventions:
* JavaScript numbers are modelled as exact real numbers (ℝ).  Catalog data
  fields hold decimal literals and are modelled as rationals (ℚ), cast to ℝ
  at every trigonometric use site; this preserves the exact comparison and
  ordering behaviour of the literals.
* Where a computation can produce the IEEE special values NaN / Infinity in
  JavaScript even over exact arithmetic (division by an exactly-zero
  denominator, Math.acos outside [-1,1]), the value is modelled by the
  JSVal type below, with the exact JavaScript propagation rules for
  Math.min, Math.max and Math.acos.
* A JavaScript Map is modelled as an insertion-ordered association list
  (Map preserves insertion order and values() iterates in that order).
* Methods that can throw are modelled in Except String; a normal return is
  Except.ok.
* Array.prototype.sort with comparator (a, b) => a.magnitude - b.magnitude
  is a stable sort by non-decreasing magnitude; it is modelled by
  List.insertionSort with the relation magLE, which is stable.
-/

namespace Stargazer

/-- JavaScript number values that can arise in the azimuth / angular-distance
computations: an exact real, NaN, or a signed infinity. -/
inductive JSVal where
  | num (x : ℝ)
  | nan
  | posInf
  | negInf

/-- JavaScript division a / b: for b = 0 it yields NaN when a = 0 and a signed
infinity otherwise; for b ≠ 0 it is exact real division. -/
noncomputable def jsDiv (a b : ℝ) : JSVal :=
  if b = 0 then
    (if a = 0 then JSVal.nan else if 0 < a then JSVal.posInf else JSVal.negInf)
  else JSVal.num (a / b)

/-- JavaScript Math.min (c, v): NaN absorbs, +∞ gives c, -∞ stays. -/
noncomputable def jsMin (c : ℝ) : JSVal → JSVal
  | JSVal.num x => JSVal.num (min c x)
  | JSVal.nan => JSVal.nan
  | JSVal.posInf => JSVal.num c
  | JSVal.negInf => JSVal.negInf

/-- JavaScript Math.max (c, v): NaN absorbs, -∞ gives c, +∞ stays. -/
noncomputable def jsMax (c : ℝ) : JSVal → JSVal
  | JSVal.num x => JSVal.num (max c x)
  | JSVal.nan => JSVal.nan
  | JSVal.posInf => JSVal.posInf
  | JSVal.negInf => JSVal.num c

/-- JavaScript Math.acos on a real argument: NaN outside [-1,1]. -/
noncomputable def jsAcosR (x : ℝ) : JSVal :=
  if -1 ≤ x ∧ x ≤ 1 then JSVal.num (Real.arccos x) else JSVal.nan

/-- JavaScript Math.acos lifted to JSVal arguments (acos of NaN or ±∞ is NaN). -/
noncomputable def jsAcosV : JSVal → JSVal
  | JSVal.num x => jsAcosR x
  | _ => JSVal.nan

/-- Multiplication of a JSVal by a nonzero real constant (used for the
radian/degree conversion factor 180/π, which is positive). -/
noncomputable def jsMulR (c : ℝ) : JSVal → JSVal
  | JSVal.num x => JSVal.num (x * c)
  | JSVal.nan => JSVal.nan
  | JSVal.posInf => if 0 < c then JSVal.posInf else if c < 0 then JSVal.negInf else JSVal.nan
  | JSVal.negInf => if 0 < c then JSVal.negInf else if c < 0 then JSVal.posInf else JSVal.nan

/-- c - v for a JSVal v (used for the azimuth quadrant adjustment 360 - az). -/
noncomputable def jsSubL (c : ℝ) : JSVal → JSVal
  | JSVal.num x => JSVal.num (c - x)
  | JSVal.nan => JSVal.nan
  | JSVal.posInf => JSVal.negInf
  | JSVal.negInf => JSVal.posInf

/-- JavaScript comparison v <= c: false whenever v is NaN. -/
def jsLe (v : JSVal) (c : ℝ) : Prop :=
  match v with
  | JSVal.num x => x ≤ c
  | JSVal.nan => False
  | JSVal.posInf => False
  | JSVal.negInf => True

noncomputable instance (v : JSVal) (c : ℝ) : Decidable (jsLe v c) :=
  match v with
  | JSVal.num x => inferInstanceAs (Decidable (x ≤ c))
  | JSVal.nan => isFalse (fun h => h)
  | JSVal.posInf => isFalse (fun h => h)
  | JSVal.negInf => isTrue trivial

/-! Data model (interfaces Star, Constellation, CelestialCoordinate,
GeolocationCoords, Planet of StarCatalogService.ts). -/

/-- interface Star of StarCatalogService.ts. -/
structure Star where
  id : String
  name : String
  commonName : Option String
  ra : ℚ
  dec : ℚ
  magnitude : ℚ
  spectralClass : Option String
  constellation : Option String
deriving DecidableEq

/-- one entry of Constellation.lines (field names from / to of the source). -/
structure ConstellationLine where
  fromStar : String
  toStar : String
deriving DecidableEq

/-- interface Constellation of StarCatalogService.ts. -/
structure Constellation where
  id : String
  name : String
  abbreviation : String
  stars : List String
  lines : List ConstellationLine
  mythology : Option String
deriving DecidableEq

/-- interface CelestialCoordinate (ra/dec in degrees). -/
structure CelestialCoordinate where
  ra : ℝ
  dec : ℝ

/-- interface GeolocationCoords. -/
structure GeolocationCoords where
  latitude : ℝ
  longitude : ℝ
  altitude : Option ℝ := none

/-- the two values of Planet.type. -/
inductive PlanetType where
  | planet
  | sun
deriving DecidableEq

/-- Planet.orbitalElements. -/
structure OrbitalElements where
  semiMajorAxis : ℚ
  eccentricity : ℚ
  inclination : ℚ
  longitudeOfAscendingNode : ℚ
  argumentOfPeriapsis : ℚ
  meanAnomalyAtEpoch : ℚ
  epoch : ℚ
  dailyMotion : ℚ
deriving DecidableEq

/-- Planet.physicalData. -/
structure PhysicalData where
  mass : ℚ
  diameter : ℚ
  distanceFromSun : ℚ
  orbitalPeriod : ℚ
  rotationPeriod : ℚ
deriving DecidableEq

/-- interface Planet of StarCatalogService.ts. -/
structure Planet where
  id : String
  name : String
  commonName : String
  type : PlanetType
  color : ℕ
  radius : ℚ
  orbitalElements : OrbitalElements
  physicalData : PhysicalData
deriving DecidableEq

/-- the UTC components of a Date as read through getUTCFullYear,
getUTCMonth ( + 1, so month is 1-based here), getUTCDate, getUTCHours,
getUTCMinutes, getUTCSeconds. -/
structure DateUTC where
  year : ℤ
  month : ℤ
  day : ℤ
  hour : ℤ
  minute : ℤ
  second : ℤ

/-- the return value of celestialToHorizontal; altitude is always an exact
real, azimuth can be NaN (see jsDiv). -/
structure HorizontalResult where
  azimuth : JSVal
  altitude : ℝ

/-! Time system. -/

/-- dateToJulianDay (StarCatalogService.ts lines 1166-1178).  Math.floor on a
quotient of integers is integer floor division. -/
def dateToJulianDay (date : DateUTC) : ℚ :=
  let a : ℤ := Int.fdiv (14 - date.month) 12
  let y : ℤ := date.year + 4800 - a
  let m : ℤ := date.month + 12 * a - 3
  let jdn : ℤ := date.day + Int.fdiv (153 * m + 2) 5 + 365 * y +
      Int.fdiv y 4 - Int.fdiv y 100 + Int.fdiv y 400 - 32045
  (jdn : ℚ) + ((date.hour : ℚ) - 12) / 24 + (date.minute : ℚ) / 1440 +
      (date.second : ℚ) / 86400

/-- the first loop of normalizeAngle: while (angle < 0) angle += 360. -/
noncomputable def normUp (x : ℝ) : ℝ :=
  if h : x < 0 then normUp (x + 360) else x
termination_by (⌈-x / 360⌉).toNat
decreasing_by
  have harg : -(x + 360) / 360 = -x / 360 - 1 := by ring
  rw [harg, Int.ceil_sub_one]
  have hpos : 0 < ⌈-x / 360⌉ :=
    Int.ceil_pos.mpr (div_pos (by linarith) (by norm_num))
  omega

/-- the second loop of normalizeAngle: while (angle >= 360) angle -= 360. -/
noncomputable def normDown (x : ℝ) : ℝ :=
  if h : 360 ≤ x then normDown (x - 360) else x
termination_by (⌊x / 360⌋).toNat
decreasing_by
  have harg : (x - 360) / 360 = x / 360 - 1 := by ring
  rw [harg, Int.floor_sub_one]
  have hpos : 1 ≤ ⌊x / 360⌋ := Int.le_floor.mpr (by push_cast; linarith)
  omega

/-- normalizeAngle (StarCatalogService.ts lines 1202-1206): the two
while-loops in sequence. -/
noncomputable def normalizeAngle (angle : ℝ) : ℝ :=
  normDown (normUp angle)

/-- calculateLocalSiderealTime (lines 1150-1161). -/
noncomputable def calculateLocalSiderealTime (longitude : ℝ) (timestamp : DateUTC) : ℝ :=
  let jd : ℝ := ((dateToJulianDay timestamp : ℚ) : ℝ)
  let t := (jd - 2451545.0) / 36525.0
  let gmst := 280.46061837 + 360.98564736629 * (jd - 2451545.0) +
      0.000387933 * t * t - t * t * t / 38710000.0
  let gmst2 := normalizeAngle gmst
  let lst := gmst2 + longitude
  normalizeAngle lst

/-! Spherical geometry. -/

/-- celestialToHorizontal (lines 1052-1087).  The altitude path is pure real
arithmetic (its asin argument is always in [-1,1]); the azimuth path runs
through the JSVal model because cosAz is a division whose denominator
cos(latRad) * cos(asin(sinAlt)) can be exactly zero. -/
noncomputable def celestialToHorizontal (celestial : CelestialCoordinate)
    (location : GeolocationCoords) (timestamp : DateUTC) : HorizontalResult :=
  let lst := calculateLocalSiderealTime location.longitude timestamp
  let hourAngle := lst - celestial.ra
  let latRad := location.latitude * Real.pi / 180
  let decRad := celestial.dec * Real.pi / 180
  let haRad := hourAngle * Real.pi / 180
  let sinAlt := Real.sin decRad * Real.sin latRad +
      Real.cos decRad * Real.cos latRad * Real.cos haRad
  let altitude := Real.arcsin sinAlt * 180 / Real.pi
  let cosAz := jsDiv (Real.sin decRad - Real.sin latRad * sinAlt)
      (Real.cos latRad * Real.cos (Real.arcsin sinAlt))
  let azimuth := jsMulR (180 / Real.pi) (jsAcosV (jsMax (-1) (jsMin 1 cosAz)))
  let azimuth2 := if 0 < Real.sin haRad then jsSubL 360 azimuth else azimuth
  { azimuth := azimuth2, altitude := altitude }

/-- isAboveHorizon (lines 1136-1145): altitude > -0.5. -/
noncomputable def isAboveHorizon (star : Star) (location : GeolocationCoords)
    (timestamp : DateUTC) : Prop :=
  (celestialToHorizontal ⟨(star.ra : ℝ), (star.dec : ℝ)⟩ location timestamp).altitude > -0.5

noncomputable instance (star : Star) (location : GeolocationCoords) (timestamp : DateUTC) :
    Decidable (isAboveHorizon star location timestamp) :=
  inferInstanceAs (Decidable (_ > _))

/-- the argument passed to Math.acos inside calculateAngularDistance
(lines 1191-1194); the source applies acos to it without clamping. -/
noncomputable def angularDistanceArg (coord1 coord2 : CelestialCoordinate) : ℝ :=
  let ra1Rad := coord1.ra * Real.pi / 180
  let dec1Rad := coord1.dec * Real.pi / 180
  let ra2Rad := coord2.ra * Real.pi / 180
  let dec2Rad := coord2.dec * Real.pi / 180
  let deltaRa := ra2Rad - ra1Rad
  Real.sin dec1Rad * Real.sin dec2Rad +
      Real.cos dec1Rad * Real.cos dec2Rad * Real.cos deltaRa

/-- calculateAngularDistance (lines 1183-1197): acos of the unclamped
argument, scaled to degrees. -/
noncomputable def calculateAngularDistance (coord1 coord2 : CelestialCoordinate) : JSVal :=
  jsMulR (180 / Real.pi) (jsAcosR (angularDistanceArg coord1 coord2))

/-! Kepler solver and orbital mechanics. -/

/-- the Newton-Raphson loop of solveKeplerEquation: at each step compute dE
from the current E, subtract it, and stop early once |dE| < 1e-8. -/
noncomputable def keplerLoop (eccentricity M : ℝ) : ℕ → ℝ → ℝ
  | 0, E => E
  | n + 1, E =>
    let dE := (E - eccentricity * Real.sin E - M) / (1 - eccentricity * Real.cos E)
    let E2 := E - dE
    if |dE| < 1e-8 then E2 else keplerLoop eccentricity M n E2

/-- solveKeplerEquation (lines 1289-1301): 10 iterations, initial guess M. -/
noncomputable def solveKeplerEquation (meanAnomaly eccentricity : ℝ) : ℝ :=
  let M := meanAnomaly * Real.pi / 180
  keplerLoop eccentricity M 10 M * 180 / Real.pi

/-- JavaScript Math.atan2 over exact reals (atan2(0, 0) = 0). -/
noncomputable def jsAtan2 (y x : ℝ) : ℝ :=
  if 0 < x then Real.arctan (y / x)
  else if x < 0 ∧ 0 ≤ y then Real.arctan (y / x) + Real.pi
  else if x < 0 ∧ y < 0 then Real.arctan (y / x) - Real.pi
  else if 0 < y then Real.pi / 2
  else if y < 0 then -(Real.pi / 2)
  else 0

/-- calculateTrueAnomaly (lines 1306-1313). -/
noncomputable def calculateTrueAnomaly (eccentricAnomaly eccentricity : ℝ) : ℝ :=
  let E := eccentricAnomaly * Real.pi / 180
  let nu := 2 * jsAtan2 (Real.sqrt (1 + eccentricity) * Real.sin (E / 2))
      (Real.sqrt (1 - eccentricity) * Real.cos (E / 2))
  normalizeAngle (nu * 180 / Real.pi)

/-- a heliocentric Cartesian position in AU. -/
structure HelioCoords where
  x : ℝ
  y : ℝ
  z : ℝ

/-- calculateHeliocentricCoordinates (lines 1318-1344). -/
noncomputable def calculateHeliocentricCoordinates (planet : Planet)
    (trueAnomaly : ℝ) : HelioCoords :=
  let nu := trueAnomaly * Real.pi / 180
  let omega := (planet.orbitalElements.argumentOfPeriapsis : ℝ) * Real.pi / 180
  let Omega := (planet.orbitalElements.longitudeOfAscendingNode : ℝ) * Real.pi / 180
  let i := (planet.orbitalElements.inclination : ℝ) * Real.pi / 180
  let e := (planet.orbitalElements.eccentricity : ℝ)
  let a := (planet.orbitalElements.semiMajorAxis : ℝ)
  let r := a * (1 - e * e) / (1 + e * Real.cos nu)
  let xOrb := r * Real.cos nu
  let yOrb := r * Real.sin nu
  let x := xOrb * (Real.cos omega * Real.cos Omega -
        Real.sin omega * Real.sin Omega * Real.cos i) +
      yOrb * (-Real.sin omega * Real.cos Omega -
        Real.cos omega * Real.sin Omega * Real.cos i)
  let y := xOrb * (Real.cos omega * Real.sin Omega +
        Real.sin omega * Real.cos Omega * Real.cos i) +
      yOrb * (-Real.sin omega * Real.sin Omega +
        Real.cos omega * Real.cos Omega * Real.cos i)
  let z := xOrb * (Real.sin omega * Real.sin i) + yOrb * (Real.cos omega * Real.sin i)
  { x := x, y := y, z := z }

/-- calculateSunPosition (lines 1260-1284). -/
noncomputable def calculateSunPosition (timestamp : DateUTC) : CelestialCoordinate :=
  let jd : ℝ := ((dateToJulianDay timestamp : ℚ) : ℝ)
  let n := jd - 2451545.0
  let L := normalizeAngle (280.460 + 0.9856474 * n)
  let g := normalizeAngle (357.528 + 0.9856003 * n) * Real.pi / 180
  let lambda := normalizeAngle (L + 1.915 * Real.sin g + 0.020 * Real.sin (2 * g))
  let lambdaRad := lambda * Real.pi / 180
  let obliquity := 23.439 * Real.pi / 180
  let ra := jsAtan2 (Real.cos obliquity * Real.sin lambdaRad) (Real.cos lambdaRad) * 180 / Real.pi
  let dec := Real.arcsin (Real.sin obliquity * Real.sin lambdaRad) * 180 / Real.pi
  { ra := normalizeAngle ra, dec := dec }

/-- heliocentricToGeocentric (lines 1349-1384); the sunPos argument is
accepted and ignored exactly as in the source body. -/
noncomputable def heliocentricToGeocentric (helioCoords : HelioCoords)
    (_sunPos : CelestialCoordinate) (_timestamp : DateUTC) : CelestialCoordinate :=
  let x := helioCoords.x
  let y := helioCoords.y
  let z := helioCoords.z
  let distance := Real.sqrt (x * x + y * y + z * z)
  let longitude := jsAtan2 y x * 180 / Real.pi
  let latitude := Real.arcsin (z / distance) * 180 / Real.pi
  let obliquity := 23.439 * Real.pi / 180
  let lambdaRad := longitude * Real.pi / 180
  let betaRad := latitude * Real.pi / 180
  let ra := jsAtan2 (Real.cos obliquity * Real.sin lambdaRad -
      Real.sin obliquity * Real.tan betaRad) (Real.cos lambdaRad) * 180 / Real.pi
  let dec := Real.arcsin (Real.sin obliquity * Real.sin lambdaRad +
      Real.cos obliquity * Real.sin betaRad) * 180 / Real.pi
  { ra := normalizeAngle ra, dec := dec }

/-- calculatePlanetPosition (lines 1225-1255). -/
noncomputable def calculatePlanetPosition (planet : Planet) (timestamp : DateUTC) :
    CelestialCoordinate :=
  if planet.type = PlanetType.sun then calculateSunPosition timestamp
  else
    let jd : ℝ := ((dateToJulianDay timestamp : ℚ) : ℝ)
    let _t := (jd - (planet.orbitalElements.epoch : ℝ)) / 365.25
    let meanAnomaly := normalizeAngle ((planet.orbitalElements.meanAnomalyAtEpoch : ℝ) +
        (planet.orbitalElements.dailyMotion : ℝ) * (jd - (planet.orbitalElements.epoch : ℝ)))
    let eccentricAnomaly := solveKeplerEquation meanAnomaly (planet.orbitalElements.eccentricity : ℝ)
    let trueAnomaly := calculateTrueAnomaly eccentricAnomaly (planet.orbitalElements.eccentricity : ℝ)
    let helioCoords := calculateHeliocentricCoordinates planet trueAnomaly
    let sunPos := calculateSunPosition timestamp
    heliocentricToGeocentric helioCoords sunPos timestamp


/-! String helpers modelling the JavaScript operations used by searchStars:
toLowerCase (ASCII range, which covers the whole catalog), trim (ASCII
whitespace) and String.prototype.includes. -/

/-- ASCII lower-casing of one character (A-Z to a-z). -/
def charLower (c : Char) : Char :=
  if 65 ≤ c.toNat ∧ c.toNat ≤ 90 then Char.ofNat (c.toNat + 32) else c

/-- toLowerCase over the character list of a string. -/
def lowerChars (l : List Char) : List Char := l.map charLower

/-- ASCII whitespace test for trim. -/
def isSpaceChar (c : Char) : Bool :=
  c == ' ' || c == '\t' || c == '\n' || c == '\r'

/-- trim: drop whitespace from both ends. -/
def trimChars (l : List Char) : List Char :=
  ((l.dropWhile isSpaceChar).reverse.dropWhile isSpaceChar).reverse

/-- does the haystack contain the needle as a contiguous sublist (the
semantics of String.prototype.includes; an empty needle always matches). -/
def hasSubList (needle : List Char) : List Char → Bool
  | [] => needle.isEmpty
  | c :: rest => needle.isPrefixOf (c :: rest) || hasSubList needle rest

/-- String.prototype.includes, on character lists. -/
def strIncludes (hay needle : List Char) : Bool := hasSubList needle hay

/-! The service state: a JavaScript Map is an insertion-ordered association
list; Map.set replaces in place when the key exists and appends otherwise;
Map.values() iterates in insertion order; Map.size is the entry count. -/

/-- Map.set. -/
def mapSet (m : List (String × α)) (k : String) (v : α) : List (String × α) :=
  if m.any (fun p => p.1 == k) then
    m.map (fun p => if p.1 == k then (k, v) else p)
  else m ++ [(k, v)]

/-- Map.get (undefined becomes none). -/
def mapGet (m : List (String × α)) (k : String) : Option α :=
  (m.find? (fun p => p.1 == k)).map (fun p => p.2)

/-- Array.from(map.values()). -/
def mapValues (m : List (String × α)) : List α := m.map (fun p => p.2)

/-- the mutable fields of the StarCatalogService instance. -/
structure CatalogState where
  stars : List (String × Star)
  constellations : List (String × Constellation)
  planets : List (String × Planet)
  isInitialized : Bool

/-- a freshly-constructed service instance (empty maps, not initialized). -/
def emptyCatalogState : CatalogState :=
  { stars := [], constellations := [], planets := [], isInitialized := false }

/-- the embedded STAR_DATA object. -/
structure StarData where
  stars : List Star
  constellations : List Constellation

/-- the embedded STAR_DATA.stars array (49 stars). -/
def starData : List Star := [
  ⟨"hip_677", "Alpheratz", some ("Alpha Andromedae"), 2.096916, 29.09043, 2.06, some ("B8IVpMnHg"), some ("Andromeda")⟩,
  ⟨"hip_113881", "Fomalhaut", some ("Alpha Piscis Austrini"), 344.41269, -29.62224, 1.16, some ("A3V"), some ("Piscis Austrinus")⟩,
  ⟨"hip_21421", "Aldebaran", some ("Alpha Tauri"), 68.98016, 16.50930, 0.85, some ("K5III"), some ("Taurus")⟩,
  ⟨"hip_25336", "Capella", some ("Alpha Aurigae"), 79.17232, 45.99799, 0.08, some ("G5III"), some ("Auriga")⟩,
  ⟨"hip_27989", "Betelgeuse", some ("Alpha Orionis"), 88.79294, 7.40706, 0.50, some ("M1-M2Ia-Iab"), some ("Orion")⟩,
  ⟨"hip_24436", "Bellatrix", some ("Gamma Orionis"), 81.28277, 6.34970, 1.64, some ("B2III"), some ("Orion")⟩,
  ⟨"hip_25930", "Mintaka", some ("Delta Orionis"), 83.00171, -0.29909, 2.23, some ("O9.5II"), some ("Orion")⟩,
  ⟨"hip_26311", "Alnilam", some ("Epsilon Orionis"), 84.05338, -1.20191, 1.70, some ("B0Ia"), some ("Orion")⟩,
  ⟨"hip_26727", "Alnitak", some ("Zeta Orionis"), 85.18965, -1.94258, 1.79, some ("O9.7Ib"), some ("Orion")⟩,
  ⟨"hip_32349", "Sirius", some ("Alpha Canis Majoris"), 101.28715, -16.71611, -1.46, some ("A1V"), some ("Canis Major")⟩,
  ⟨"hip_37279", "Procyon", some ("Alpha Canis Minoris"), 114.82563, 5.22499, 0.38, some ("F5IV-V"), some ("Canis Minor")⟩,
  ⟨"hip_69673", "Arcturus", some ("Alpha Bootis"), 213.91530, 19.18241, -0.05, some ("K1.5IIIFe-0.5"), some ("Bootes")⟩,
  ⟨"hip_91262", "Vega", some ("Alpha Lyrae"), 279.23473, 38.78369, 0.03, some ("A0V"), some ("Lyra")⟩,
  ⟨"hip_102098", "Deneb", some ("Alpha Cygni"), 310.35798, 45.28034, 1.25, some ("A2Ia"), some ("Cygnus")⟩,
  ⟨"hip_97649", "Altair", some ("Alpha Aquilae"), 297.69582, 8.86832, 0.77, some ("A7V"), some ("Aquila")⟩,
  ⟨"hip_61084", "Spica", some ("Alpha Virginis"), 201.29825, -11.16132, 1.04, some ("B1III-IV"), some ("Virgo")⟩,
  ⟨"hip_68702", "Antares", some ("Alpha Scorpii"), 247.35191, -26.43200, 1.09, some ("M1.5Iab-Ib"), some ("Scorpius")⟩,
  ⟨"hip_54061", "Dubhe", some ("Alpha Ursae Majoris"), 165.93196, 61.75103, 1.79, some ("K0III"), some ("Ursa Major")⟩,
  ⟨"hip_53910", "Merak", some ("Beta Ursae Majoris"), 165.46038, 56.38245, 2.37, some ("A1V"), some ("Ursa Major")⟩,
  ⟨"hip_58001", "Phecda", some ("Gamma Ursae Majoris"), 178.45728, 53.69476, 2.44, some ("A0V"), some ("Ursa Major")⟩,
  ⟨"hip_59774", "Megrez", some ("Delta Ursae Majoris"), 183.85657, 57.03258, 3.31, some ("A3V"), some ("Ursa Major")⟩,
  ⟨"hip_62956", "Alioth", some ("Epsilon Ursae Majoris"), 193.50728, 55.95982, 1.77, some ("A1III-IVp"), some ("Ursa Major")⟩,
  ⟨"hip_65378", "Mizar", some ("Zeta Ursae Majoris"), 200.98142, 54.92535, 2.27, some ("A2V"), some ("Ursa Major")⟩,
  ⟨"hip_67301", "Alkaid", some ("Eta Ursae Majoris"), 206.88513, 49.31324, 1.86, some ("B3V"), some ("Ursa Major")⟩,
  ⟨"hip_11767", "Polaris", some ("Alpha Ursae Minoris"), 37.95456, 89.26411, 1.98, some ("F7Ib"), some ("Ursa Minor")⟩,
  ⟨"hip_85822", "Kochab", some ("Beta Ursae Minoris"), 222.67635, 74.15550, 2.08, some ("K4III"), some ("Ursa Minor")⟩,
  ⟨"hip_82080", "Pherkad", some ("Gamma Ursae Minoris"), 230.18216, 71.83402, 3.05, some ("A3II-III"), some ("Ursa Minor")⟩,
  ⟨"hip_77055", "Yildun", some ("Delta Ursae Minoris"), 211.09729, 86.58638, 4.35, some ("A1Vn"), some ("Ursa Minor")⟩,
  ⟨"hip_75097", "Urodelus", some ("Epsilon Ursae Minoris"), 213.91192, 82.03720, 4.23, some ("G5III"), some ("Ursa Minor")⟩,
  ⟨"hip_79822", "Ahfa al Farkadain", some ("Zeta Ursae Minoris"), 228.05758, 77.79481, 4.32, some ("A3Vn"), some ("Ursa Minor")⟩,
  ⟨"hip_72607", "Anwar al Farkadain", some ("Eta Ursae Minoris"), 211.20944, 73.28879, 4.95, some ("F5V"), some ("Ursa Minor")⟩,
  ⟨"hip_3179", "Caph", some ("Beta Cassiopeiae"), 10.12684, 59.14978, 2.27, some ("F2III-IV"), some ("Cassiopeia")⟩,
  ⟨"hip_746", "Schedar", some ("Alpha Cassiopeiae"), 2.29716, 56.53741, 2.23, some ("K0IIIa"), some ("Cassiopeia")⟩,
  ⟨"hip_4427", "Gamma Cassiopeiae", some ("Tsih"), 14.17713, 60.71674, 2.47, some ("B0IVe"), some ("Cassiopeia")⟩,
  ⟨"hip_6686", "Ruchbah", some ("Delta Cassiopeiae"), 21.45343, 60.23531, 2.68, some ("A5V"), some ("Cassiopeia")⟩,
  ⟨"hip_8886", "Segin", some ("Epsilon Cassiopeiae"), 28.59891, 63.67007, 3.38, some ("B3III"), some ("Cassiopeia")⟩,
  ⟨"hip_49669", "Regulus", some ("Alpha Leonis"), 152.09296, 11.96721, 1.35, some ("B8IVn"), some ("Leo")⟩,
  ⟨"hip_57632", "Denebola", some ("Beta Leonis"), 177.26499, 14.57206, 2.14, some ("A3V"), some ("Leo")⟩,
  ⟨"hip_50583", "Algieba", some ("Gamma Leonis"), 154.99343, 19.84186, 2.08, some ("K1III"), some ("Leo")⟩,
  ⟨"hip_54872", "Zosma", some ("Delta Leonis"), 168.52703, 20.52426, 2.56, some ("A4V"), some ("Leo")⟩,
  ⟨"hip_47908", "Algenubi", some ("Epsilon Leonis"), 146.46707, 23.77435, 2.98, some ("G1II"), some ("Leo")⟩,
  ⟨"hip_46750", "Adhafera", some ("Zeta Leonis"), 143.21396, 23.41735, 3.44, some ("F0III"), some ("Leo")⟩,
  ⟨"hip_55642", "Chort", some ("Theta Leonis"), 170.83844, 15.42958, 3.34, some ("A2V"), some ("Leo")⟩,
  ⟨"hip_54879", "Coxa", some ("Iota Leonis"), 168.56056, 10.53272, 3.94, some ("F3V"), some ("Leo")⟩,
  ⟨"hip_56211", "Chertan", some ("Mu Leonis"), 172.49726, 26.00677, 3.88, some ("K2III"), some ("Leo")⟩,
  ⟨"hip_100453", "Sadr", some ("Gamma Cygni"), 305.55715, 40.25669, 2.20, some ("F8Ib"), some ("Cygnus")⟩,
  ⟨"hip_95947", "Gienah", some ("Epsilon Cygni"), 292.68035, 33.97029, 2.46, some ("K0III"), some ("Cygnus")⟩,
  ⟨"hip_104732", "Albireo", some ("Beta Cygni"), 292.68035, 27.95968, 3.08, some ("K3II"), some ("Cygnus")⟩,
  ⟨"hip_94779", "Fawaris", some ("Delta Cygni"), 289.24498, 45.13081, 2.87, some ("A0IV"), some ("Cygnus")⟩
]

/-- the embedded STAR_DATA.constellations array. -/
def constellationData : List Constellation := [
  ⟨"orion", "Orion", "Ori", ["hip_27989", "hip_24436", "hip_25930", "hip_26311", "hip_26727"],
    [⟨"hip_25930", "hip_26311"⟩, ⟨"hip_26311", "hip_26727"⟩, ⟨"hip_24436", "hip_27989"⟩, ⟨"hip_24436", "hip_25930"⟩, ⟨"hip_27989", "hip_26311"⟩], some ("The Hunter in Greek mythology")⟩,
  ⟨"canis_major", "Canis Major", "CMa", ["hip_32349"],
    [], some ("Orion\x27s hunting dog")⟩,
  ⟨"summer_triangle", "Summer Triangle", "ST", ["hip_91262", "hip_102098", "hip_97649"],
    [⟨"hip_91262", "hip_102098"⟩, ⟨"hip_102098", "hip_97649"⟩, ⟨"hip_97649", "hip_91262"⟩], some ("Three bright stars forming a triangle in summer sky")⟩,
  ⟨"taurus", "Taurus", "Tau", ["hip_21421"],
    [], some ("The Bull - contains the bright star Aldebaran")⟩,
  ⟨"ursa_major", "Ursa Major", "UMa", ["hip_54061", "hip_53910", "hip_58001", "hip_59774", "hip_62956", "hip_65378", "hip_67301"],
    [⟨"hip_54061", "hip_53910"⟩, ⟨"hip_53910", "hip_58001"⟩, ⟨"hip_58001", "hip_59774"⟩, ⟨"hip_59774", "hip_54061"⟩, ⟨"hip_59774", "hip_62956"⟩, ⟨"hip_62956", "hip_65378"⟩, ⟨"hip_65378", "hip_67301"⟩], some ("The Great Bear - most recognizable constellation in northern sky")⟩,
  ⟨"ursa_minor", "Ursa Minor", "UMi", ["hip_11767", "hip_85822", "hip_82080", "hip_77055", "hip_75097", "hip_79822", "hip_72607"],
    [⟨"hip_85822", "hip_82080"⟩, ⟨"hip_82080", "hip_79822"⟩, ⟨"hip_79822", "hip_72607"⟩, ⟨"hip_72607", "hip_85822"⟩, ⟨"hip_72607", "hip_75097"⟩, ⟨"hip_75097", "hip_77055"⟩, ⟨"hip_77055", "hip_11767"⟩], some ("The Little Bear - contains Polaris, the North Star")⟩,
  ⟨"cassiopeia", "Cassiopeia", "Cas", ["hip_746", "hip_3179", "hip_4427", "hip_6686", "hip_8886"],
    [⟨"hip_746", "hip_3179"⟩, ⟨"hip_3179", "hip_4427"⟩, ⟨"hip_4427", "hip_6686"⟩, ⟨"hip_6686", "hip_8886"⟩], some ("The Queen - distinctive W-shaped constellation")⟩,
  ⟨"leo", "Leo", "Leo", ["hip_49669", "hip_57632", "hip_50583", "hip_54872", "hip_47908", "hip_46750", "hip_55642", "hip_54879", "hip_56211"],
    [⟨"hip_49669", "hip_47908"⟩, ⟨"hip_47908", "hip_56211"⟩, ⟨"hip_56211", "hip_46750"⟩, ⟨"hip_46750", "hip_50583"⟩, ⟨"hip_50583", "hip_47908"⟩, ⟨"hip_49669", "hip_54872"⟩, ⟨"hip_54872", "hip_55642"⟩, ⟨"hip_55642", "hip_57632"⟩, ⟨"hip_54872", "hip_54879"⟩], some ("The Lion - represents the Nemean Lion defeated by Hercules")⟩,
  ⟨"cygnus", "Cygnus", "Cyg", ["hip_102098", "hip_100453", "hip_95947", "hip_104732", "hip_94779"],
    [⟨"hip_102098", "hip_100453"⟩, ⟨"hip_100453", "hip_104732"⟩, ⟨"hip_95947", "hip_94779"⟩, ⟨"hip_95947", "hip_100453"⟩, ⟨"hip_100453", "hip_94779"⟩], some ("The Swan - also known as the Northern Cross")⟩
]

/-- the embedded STAR_DATA object of the source. -/
def STAR_DATA : StarData := { stars := starData, constellations := constellationData }

/-- the embedded PLANET_DATA.planets array (sun plus 8 planets). -/
def planetData : List Planet := [
  ⟨"sun", "Sun", "Sol", PlanetType.sun, 16766720, 8.0,
    ⟨0, 0, 0, 0, 0, 0, 2451545.0, 0⟩,
    ⟨333000, 109, 0, 0, 25.4⟩⟩,
  ⟨"mercury", "Mercury", "Mercury", PlanetType.planet, 16753920, 2.5,
    ⟨0.38709927, 0.20563593, 7.00497902, 48.33076593, 77.45779628, 252.25032350, 2451545.0, 4.0923344368⟩,
    ⟨0.055, 0.383, 0.39, 87.97, 58.65⟩⟩,
  ⟨"venus", "Venus", "Venus", PlanetType.planet, 16711680, 3.5,
    ⟨0.72333566, 0.00677672, 3.39467605, 76.67984255, 131.60246718, 181.97909950, 2451545.0, 1.6021302244⟩,
    ⟨0.815, 0.949, 0.72, 224.70, -243.02⟩⟩,
  ⟨"earth", "Earth", "Earth", PlanetType.planet, 7050198, 3.5,
    ⟨1.00000261, 0.01671123, -0.00001531, 0.0, 102.93768193, 100.46457166, 2451545.0, 0.9856002585⟩,
    ⟨1.0, 1.0, 1.0, 365.25, 1.0⟩⟩,
  ⟨"mars", "Mars", "Mars", PlanetType.planet, 16711680, 3.0,
    ⟨1.52371034, 0.09339410, 1.84969142, 49.55953891, -4.55343205, -4.55343205, 2451545.0, 0.5240207766⟩,
    ⟨0.107, 0.532, 1.52, 686.98, 1.03⟩⟩,
  ⟨"jupiter", "Jupiter", "Jupiter", PlanetType.planet, 8388736, 6.0,
    ⟨5.20288700, 0.04838624, 1.30439695, 100.47390909, 273.86740900, 19.89511400, 2451545.0, 0.0831294023⟩,
    ⟨317.8, 11.21, 5.20, 4332.59, 0.41⟩⟩,
  ⟨"saturn", "Saturn", "Saturn", PlanetType.planet, 16711680, 5.5,
    ⟨9.53667594, 0.05386179, 2.48599187, 113.66242448, 339.39291900, 316.96735300, 2451545.0, 0.0334442282⟩,
    ⟨95.2, 9.45, 9.54, 10759.22, 0.45⟩⟩,
  ⟨"uranus", "Uranus", "Uranus", PlanetType.planet, 255, 4.5,
    ⟨19.18916464, 0.04725744, 0.77263783, 74.01692503, 96.99839200, 142.23851000, 2451545.0, 0.0116771814⟩,
    ⟨14.5, 4.01, 19.22, 30688.5, -0.72⟩⟩,
  ⟨"neptune", "Neptune", "Neptune", PlanetType.planet, 255, 4.3,
    ⟨30.06992276, 0.00859048, 1.77004347, 131.78422574, 272.8461100, 260.2471152, 2451545.0, 0.0060190454⟩,
    ⟨17.1, 3.88, 30.05, 60182, 0.67⟩⟩
]


/-- the PLANET_DATA object of the source. -/
structure PlanetData where
  planets : List Planet

/-- the embedded PLANET_DATA object. -/
def PLANET_DATA : PlanetData := { planets := planetData }

/-- loadEmbeddedCatalog (lines 965-975), abstracted over the data it loads;
the source always loads STAR_DATA.  It only copies entries into the maps:
no reference between constellations and stars is checked. -/
def loadEmbeddedCatalogWith (data : StarData) (s : CatalogState) : CatalogState :=
  let s1 := { s with
    stars := data.stars.foldl (fun m (st : Star) => mapSet m st.id st) s.stars }
  { s1 with
    constellations :=
      data.constellations.foldl (fun m (c : Constellation) => mapSet m c.id c)
        s1.constellations }

/-- loadPlanetaryData (lines 980-984), abstracted over the data it loads. -/
def loadPlanetaryDataWith (data : PlanetData) (s : CatalogState) : CatalogState :=
  { s with
    planets := data.planets.foldl (fun m (p : Planet) => mapSet m p.id p) s.planets }

/-- initialize (lines 948-960), abstracted over the loaded data: load stars
and constellations, load planets, set isInitialized.  The body cannot throw
(the catch clause only rethrows), so the result is always Except.ok. -/
def initCatalogWith (data : StarData) (pdata : PlanetData) (s : CatalogState) :
    Except String CatalogState :=
  Except.ok
    { loadPlanetaryDataWith pdata (loadEmbeddedCatalogWith data s) with isInitialized := true }

/-- initialize as shipped: loads the embedded STAR_DATA and PLANET_DATA. -/
def initCatalog (s : CatalogState) : Except String CatalogState :=
  initCatalogWith STAR_DATA PLANET_DATA s

/-- the state of the service after initialize on a fresh instance (the
Except.ok payload of initCatalog emptyCatalogState). -/
def initState : CatalogState :=
  { loadPlanetaryDataWith PLANET_DATA (loadEmbeddedCatalogWith STAR_DATA emptyCatalogState) with
    isInitialized := true }

/-- the error message thrown by the guarded queries. -/
def notInitializedMsg : String := "Star catalog not initialized"

/-- the sort relation of the comparator (a, b) => a.magnitude - b.magnitude. -/
def magLE (a b : Star) : Prop := a.magnitude ≤ b.magnitude

instance : DecidableRel magLE :=
  fun a b => inferInstanceAs (Decidable (a.magnitude ≤ b.magnitude))

instance : IsTotal Star magLE := ⟨fun a b => le_total a.magnitude b.magnitude⟩

instance : IsTrans Star magLE := ⟨fun _ _ _ hab hbc => le_trans hab hbc⟩

/-- the accumulation loop of getVisibleStars (lines 1000-1010): skip stars
with magnitude above the cutoff, keep those above the horizon. -/
noncomputable def visibleStarsAux (location : GeolocationCoords) (maxMagnitude : ℚ)
    (timestamp : DateUTC) : List Star → List Star
  | [] => []
  | star :: rest =>
    if star.magnitude > maxMagnitude then visibleStarsAux location maxMagnitude timestamp rest
    else if isAboveHorizon star location timestamp then
      star :: visibleStarsAux location maxMagnitude timestamp rest
    else visibleStarsAux location maxMagnitude timestamp rest

/-- the list returned by getVisibleStars once the guard has passed:
accumulate, then sort by ascending magnitude (stable). -/
noncomputable def visibleStarsList (s : CatalogState) (location : GeolocationCoords)
    (maxMagnitude : ℚ) (timestamp : DateUTC) : List Star :=
  List.insertionSort magLE (visibleStarsAux location maxMagnitude timestamp (mapValues s.stars))

/-- getVisibleStars (lines 989-1014). -/
noncomputable def getVisibleStars (s : CatalogState) (location : GeolocationCoords)
    (maxMagnitude : ℚ) (timestamp : DateUTC) : Except String (List Star) :=
  if s.isInitialized then Except.ok (visibleStarsList s location maxMagnitude timestamp)
  else Except.error notInitializedMsg

/-- the accumulation loop of getStarsInView (lines 1031-1044). -/
noncomputable def starsInViewAux (centerCoordinate : CelestialCoordinate)
    (maxDistance : ℝ) (maxMagnitude : ℚ) : List Star → List Star
  | [] => []
  | star :: rest =>
    if star.magnitude > maxMagnitude then
      starsInViewAux centerCoordinate maxDistance maxMagnitude rest
    else if jsLe (calculateAngularDistance ⟨(star.ra : ℝ), (star.dec : ℝ)⟩ centerCoordinate)
        maxDistance then
      star :: starsInViewAux centerCoordinate maxDistance maxMagnitude rest
    else starsInViewAux centerCoordinate maxDistance maxMagnitude rest

/-- the list returned by getStarsInView once the guard has passed. -/
noncomputable def starsInViewList (s : CatalogState) (centerCoordinate : CelestialCoordinate)
    (fieldOfViewDegrees : ℝ) (maxMagnitude : ℚ) : List Star :=
  List.insertionSort magLE
    (starsInViewAux centerCoordinate (fieldOfViewDegrees / 2) maxMagnitude (mapValues s.stars))

/-- getStarsInView (lines 1019-1047). -/
noncomputable def getStarsInView (s : CatalogState) (centerCoordinate : CelestialCoordinate)
    (fieldOfViewDegrees : ℝ) (maxMagnitude : ℚ) : Except String (List Star) :=
  if s.isInitialized then
    Except.ok (starsInViewList s centerCoordinate fieldOfViewDegrees maxMagnitude)
  else Except.error notInitializedMsg

/-- getStar (lines 1092-1094): a plain map lookup, with no guard. -/
def getStar (s : CatalogState) (id : String) : Except String (Option Star) :=
  Except.ok (mapGet s.stars id)

/-- the match test of searchStars for one star. -/
def searchMatches (sanitizedQuery : List Char) (star : Star) : Bool :=
  let nameMatch := strIncludes (lowerChars star.name.data) sanitizedQuery
  let commonNameMatch :=
    (star.commonName.map (fun cn => strIncludes (lowerChars cn.data) sanitizedQuery)).getD false
  nameMatch || commonNameMatch

/-- the list returned by searchStars once the guard has passed (lines
1104-1116): lower-case and trim the query, filter, sort by magnitude. -/
def searchStarsList (s : CatalogState) (query : String) : List Star :=
  let sanitizedQuery := trimChars (lowerChars query.data)
  List.insertionSort magLE ((mapValues s.stars).filter (searchMatches sanitizedQuery))

/-- searchStars (lines 1099-1117). -/
def searchStars (s : CatalogState) (query : String) : Except String (List Star) :=
  if s.isInitialized then Except.ok (searchStarsList s query)
  else Except.error notInitializedMsg

/-- getConstellations (lines 1122-1124): no guard. -/
def getConstellations (s : CatalogState) : Except String (List Constellation) :=
  Except.ok (mapValues s.constellations)

/-- getConstellation (lines 1129-1131): no guard. -/
def getConstellation (s : CatalogState) (id : String) : Except String (Option Constellation) :=
  Except.ok (mapGet s.constellations id)

/-- getPlanets (lines 1211-1213): no guard. -/
def getPlanets (s : CatalogState) : Except String (List Planet) :=
  Except.ok (mapValues s.planets)

/-- getPlanet (lines 1218-1220): no guard. -/
def getPlanet (s : CatalogState) (id : String) : Except String (Option Planet) :=
  Except.ok (mapGet s.planets id)

/-- one element of the getVisiblePlanets result: the planet spread together
with its computed position and horizontal coordinates. -/
structure VisiblePlanet where
  planet : Planet
  position : CelestialCoordinate
  horizontal : HorizontalResult

/-- the accumulation loop of getVisiblePlanets (lines 1399-1411). -/
noncomputable def visiblePlanetsAux (location : GeolocationCoords) (timestamp : DateUTC) :
    List Planet → List VisiblePlanet
  | [] => []
  | planet :: rest =>
    let position := calculatePlanetPosition planet timestamp
    let horizontal := celestialToHorizontal position location timestamp
    if horizontal.altitude > -0.5 then
      { planet := planet, position := position, horizontal := horizontal } ::
        visiblePlanetsAux location timestamp rest
    else visiblePlanetsAux location timestamp rest

/-- the list returned by getVisiblePlanets once the guard has passed. -/
noncomputable def visiblePlanetsList (s : CatalogState) (location : GeolocationCoords)
    (timestamp : DateUTC) : List VisiblePlanet :=
  visiblePlanetsAux location timestamp (mapValues s.planets)

/-- getVisiblePlanets (lines 1389-1414). -/
noncomputable def getVisiblePlanets (s : CatalogState) (location : GeolocationCoords)
    (timestamp : DateUTC) : Except String (List VisiblePlanet) :=
  if s.isInitialized then Except.ok (visiblePlanetsList s location timestamp)
  else Except.error notInitializedMsg

/-- the record returned by getStatistics. -/
structure Statistics where
  totalStars : ℕ
  totalConstellations : ℕ
  totalPlanets : ℕ
  brightestStar : Option Star
deriving DecidableEq

/-- the reduce of getStatistics: stars.reduce((b, s) => s.magnitude <
b.magnitude ? s : b, stars[0] || null).  With a non-empty array the seed is
stars[0] and the callback runs over every element; with an empty array the
seed null is returned directly. -/
def brightestOf : List Star → Option Star
  | [] => none
  | x :: xs =>
    some ((x :: xs).foldl
      (fun brightest star =>
        if star.magnitude < brightest.magnitude then star else brightest) x)

/-- getStatistics (lines 1419-1437): no guard. -/
def getStatistics (s : CatalogState) : Statistics :=
  { totalStars := s.stars.length
    totalConstellations := s.constellations.length
    totalPlanets := s.planets.length
    brightestStar := brightestOf (mapValues s.stars) }


/-! Concrete inputs used by the claim theorems below. -/

/-- the UTC timestamp 2000-01-01T12:00:00Z (the J2000.0 epoch). -/
def j2000Noon : DateUTC := ⟨2000, 1, 1, 12, 0, 0⟩

/-- the Sirius entry of the embedded catalog. -/
def siriusStar : Star :=
  ⟨"hip_32349", "Sirius", some ("Alpha Canis Majoris"), 101.28715, -16.71611, -1.46,
    some ("A1V"), some ("Canis Major")⟩

/-- the Mizar entry of the embedded catalog (magnitude 2.27). -/
def mizarStar : Star :=
  ⟨"hip_65378", "Mizar", some ("Zeta Ursae Majoris"), 200.98142, 54.92535, 2.27,
    some ("A2V"), some ("Ursa Major")⟩

/-- the Caph entry of the embedded catalog (magnitude 2.27, listed after
Mizar but with the lexicographically smaller id). -/
def caphStar : Star :=
  ⟨"hip_3179", "Caph", some ("Beta Cassiopeiae"), 10.12684, 59.14978, 2.27,
    some ("F2III-IV"), some ("Cassiopeia")⟩

/-- an observer standing exactly at the north pole. -/
def northPoleLocation : GeolocationCoords := ⟨90, 0, none⟩

/-- a celestial coordinate at ra = 0, dec = 0. -/
def zeroCoord : CelestialCoordinate := ⟨0, 0⟩

/-- the Phecda coordinate (dec 53.69476): under IEEE-754 double arithmetic
sin(dec)^2 + cos(dec)^2 evaluates to 1.0000000000000002 for this declination,
so the unclamped Math.acos call of calculateAngularDistance returns NaN for
the distance of Phecda to itself. -/
def phecdaCoord : CelestialCoordinate := ⟨178.45728, 53.69476⟩

/-- Sirius declination in radians. -/
noncomputable def c5DecRad : ℝ := (-16.71611 : ℝ) * Real.pi / 180

/-- the cosine that the hour angle must have so that the altitude of Sirius
is exactly -0.5 degrees for an observer at latitude 0. -/
noncomputable def c5Arg : ℝ := -Real.sin (Real.pi / 360) / Real.cos c5DecRad

/-- that hour angle, in degrees (about 90.52). -/
noncomputable def c5HaDeg : ℝ := Real.arccos c5Arg * 180 / Real.pi

/-- an observer location (latitude 0, longitude about -88.65, well inside
[-180, 180]) at which, at the J2000.0 epoch, the computed altitude of Sirius
is exactly -0.5 degrees. -/
noncomputable def c5Location : GeolocationCoords :=
  ⟨0, 101.28715 + c5HaDeg - 280.46061837, none⟩

/-- a constellation whose member list and lines reference a star id that
exists nowhere. -/
def orphanConstellation : Constellation :=
  ⟨"orphan", "Orphan", "Orp", ["ghost_star"], [⟨"ghost_star", "ghost_star"⟩], none⟩

/-- catalog data containing only that dangling constellation. -/
def orphanStarData : StarData := ⟨[], [orphanConstellation]⟩

/-- an empty planet table. -/
def emptyPlanetData : PlanetData := ⟨[]⟩

/-- the state produced by initialize on the dangling data: construction
succeeds and stores the dangling constellation verbatim. -/
def orphanState : CatalogState :=
  { loadPlanetaryDataWith emptyPlanetData
      (loadEmbeddedCatalogWith orphanStarData emptyCatalogState) with
    isInitialized := true }

/-! General lemmas about the map model. -/

/-- Map.set appends when the key is not present. -/
theorem mapSet_append {α : Type} (acc : List (String × α)) (k : String) (v : α)
    (h : ∀ p ∈ acc, p.1 ≠ k) : mapSet acc k v = acc ++ [(k, v)] := by
  unfold mapSet
  rw [if_neg]
  simp only [List.any_eq_true, beq_iff_eq, not_exists]
  push_neg
  exact h

/-- loading a list of entries with pairwise distinct keys into a map whose
keys are disjoint from them appends the entries in order. -/
theorem foldl_mapSet_append {α : Type} (key : α → String) :
    ∀ (l : List α) (acc : List (String × α)),
    (∀ x ∈ l, ∀ p ∈ acc, p.1 ≠ key x) →
    (l.map key).Nodup →
    l.foldl (fun m x => mapSet m (key x) x) acc = acc ++ l.map (fun x => (key x, x)) := by
  intro l
  induction l with
  | nil => intro acc _ _; simp
  | cons x xs ih =>
    intro acc hacc hnd
    simp only [List.foldl_cons]
    rw [mapSet_append acc (key x) x (fun p hp => hacc x (List.mem_cons_self x xs) p hp)]
    rw [List.map_cons, List.nodup_cons] at hnd
    rw [ih (acc ++ [(key x, x)]) ?_ hnd.2]
    · simp
    · intro y hy p hp
      rcases List.mem_append.mp hp with hpin | hpx
      · exact hacc y (List.mem_cons_of_mem _ hy) p hpin
      · have hpeq : p = (key x, x) := by simpa using hpx
        subst hpeq
        intro hcontra
        have hcontra2 : key x = key y := hcontra
        have hmem : key x ∈ List.map key xs := by
          rw [hcontra2]; exact List.mem_map_of_mem key hy
        exact hnd.1 hmem

/-- the star map of the initialized catalog holds exactly the embedded stars,
keyed by id, in catalog order. -/
theorem initState_stars : initState.stars = starData.map (fun st => (st.id, st)) := by
  have h := foldl_mapSet_append (fun st : Star => st.id) starData [] (by simp) (by decide)
  simpa [initState, loadPlanetaryDataWith, loadEmbeddedCatalogWith, emptyCatalogState,
    STAR_DATA] using h

/-- the values of the initialized star map are the embedded stars in order. -/
theorem initState_starValues : mapValues initState.stars = starData := by
  rw [initState_stars]
  simp only [mapValues, List.map_map]
  have hcomp : ((fun p => p.2) ∘ fun st : Star => (st.id, st)) = id := by
    funext st; rfl
  rw [hcomp, List.map_id]

/-! General lemmas about the string helpers. -/

/-- the empty needle is contained in every haystack (includes-with-empty). -/
theorem hasSubList_nil (hay : List Char) : hasSubList [] hay = true := by
  cases hay <;> rfl

/-- every star matches the empty sanitized query. -/
theorem searchMatches_nil (st : Star) : searchMatches [] st = true := by
  unfold searchMatches strIncludes
  rw [hasSubList_nil]
  rfl

/-- searchStars with the empty query sorts the whole catalog. -/
theorem searchStarsList_empty_query (s : CatalogState) :
    searchStarsList s "" = List.insertionSort magLE (mapValues s.stars) := by
  unfold searchStarsList
  show List.insertionSort magLE
      (List.filter (searchMatches (trimChars (lowerChars ("".data)))) (mapValues s.stars)) = _
  rw [show trimChars (lowerChars ("".data)) = [] from rfl]
  rw [List.filter_eq_self.mpr (fun a _ => searchMatches_nil a)]

/-! Lemmas about normalizeAngle (the two while-loops). -/

/-- the first loop never returns a negative angle. -/
theorem normUp_nonneg (x : ℝ) : 0 ≤ normUp x := by
  induction x using normUp.induct with
  | case1 x h ih => rw [normUp, dif_pos h]; exact ih
  | case2 x h => rw [normUp, dif_neg h]; linarith [not_lt.mp h]

/-- the first loop shifts its input by an integer multiple of 360. -/
theorem normUp_exists (x : ℝ) : ∃ k : ℤ, normUp x = x + 360 * k := by
  induction x using normUp.induct with
  | case1 x h ih =>
    obtain ⟨k, hk⟩ := ih
    refine ⟨k + 1, ?_⟩
    rw [normUp, dif_pos h, hk]
    push_cast
    ring
  | case2 x h =>
    refine ⟨0, ?_⟩
    rw [normUp, dif_neg h]
    push_cast
    ring

/-- the second loop always returns a value below 360. -/
theorem normDown_lt (x : ℝ) : normDown x < 360 := by
  induction x using normDown.induct with
  | case1 x h ih => rw [normDown, dif_pos h]; exact ih
  | case2 x h => rw [normDown, dif_neg h]; linarith [not_le.mp h]

/-- the second loop preserves nonnegativity. -/
theorem normDown_nonneg (x : ℝ) : 0 ≤ x → 0 ≤ normDown x := by
  induction x using normDown.induct with
  | case1 x h ih =>
    intro _
    rw [normDown, dif_pos h]
    exact ih (by linarith)
  | case2 x h =>
    intro hx
    rw [normDown, dif_neg h]
    exact hx

/-- the second loop shifts its input by an integer multiple of 360. -/
theorem normDown_exists (x : ℝ) : ∃ k : ℤ, normDown x = x - 360 * k := by
  induction x using normDown.induct with
  | case1 x h ih =>
    obtain ⟨k, hk⟩ := ih
    refine ⟨k + 1, ?_⟩
    rw [normDown, dif_pos h, hk]
    push_cast
    ring
  | case2 x h =>
    refine ⟨0, ?_⟩
    rw [normDown, dif_neg h]
    push_cast
    ring

/-- two values of [0, 360) that differ by an integer multiple of 360 are
equal. -/
theorem eq_of_sub_int_mul_360 (m : ℤ) {u v : ℝ} (hu0 : 0 ≤ u) (hu1 : u < 360)
    (hv0 : 0 ≤ v) (hv1 : v < 360) (h : u - v = 360 * m) : u = v := by
  have h1 : (-360 : ℝ) < 360 * m := by linarith
  have h2 : (360 : ℝ) * m < 360 := by linarith
  have hm1 : (-1 : ℝ) < (m : ℝ) := by linarith
  have hm2 : ((m : ℝ)) < 1 := by linarith
  have hm0 : m = 0 := by
    have ha : (-1 : ℤ) < m := by exact_mod_cast hm1
    have hb : m < 1 := by exact_mod_cast hm2
    omega
  subst hm0
  push_cast at h
  linarith

/-- normalizeAngle lands in [0, 360). -/
theorem normalizeAngle_bounds (x : ℝ) : 0 ≤ normalizeAngle x ∧ normalizeAngle x < 360 :=
  ⟨normDown_nonneg _ (normUp_nonneg x), normDown_lt _⟩

/-- normalizeAngle shifts its input by an integer multiple of 360. -/
theorem normalizeAngle_exists (x : ℝ) : ∃ k : ℤ, normalizeAngle x = x + 360 * k := by
  obtain ⟨k1, h1⟩ := normUp_exists x
  obtain ⟨k2, h2⟩ := normDown_exists (normUp x)
  refine ⟨k1 - k2, ?_⟩
  unfold normalizeAngle
  rw [h2, h1]
  push_cast
  ring

/-- normalizeAngle is 360-periodic. -/
theorem normalizeAngle_period (x : ℝ) (k : ℤ) :
    normalizeAngle (x + 360 * k) = normalizeAngle x := by
  obtain ⟨k1, h1⟩ := normalizeAngle_exists (x + 360 * k)
  obtain ⟨k2, h2⟩ := normalizeAngle_exists x
  have hb1 := normalizeAngle_bounds (x + 360 * k)
  have hb2 := normalizeAngle_bounds x
  apply eq_of_sub_int_mul_360 (k + k1 - k2) hb1.1 hb1.2 hb2.1 hb2.2
  rw [h1, h2]
  push_cast
  ring

/-- normalizeAngle is the identity on [0, 360). -/
theorem normalizeAngle_eq_self {x : ℝ} (h0 : 0 ≤ x) (h1 : x < 360) :
    normalizeAngle x = x := by
  unfold normalizeAngle
  rw [normUp, dif_neg (not_lt.mpr h0), normDown, dif_neg (not_le.mpr h1)]

/-- helper form of the Julian-day evaluation at the J2000.0 epoch, shared by
the sidereal-time evaluations below. -/
theorem dateToJulianDay_j2000_aux : dateToJulianDay j2000Noon = 2451545 := by
  norm_num [dateToJulianDay, j2000Noon, Int.fdiv]


set_option maxRecDepth 8000

/-! Numeric facts for the exact-horizon counterexample: at c5Location and the
J2000.0 epoch the computed altitude of Sirius is exactly -0.5 degrees. -/

/-- Sirius is well inside the open interval where cosine is positive. -/
theorem c5_cos_dec_pos : 0 < Real.cos c5DecRad := by
  apply Real.cos_pos_of_mem_Ioo
  constructor
  · show -(Real.pi / 2) < c5DecRad
    unfold c5DecRad
    nlinarith [Real.pi_pos]
  · show c5DecRad < Real.pi / 2
    unfold c5DecRad
    nlinarith [Real.pi_pos]

/-- the small angle pi/360 has nonnegative sine. -/
theorem c5_sin_small_nonneg : 0 ≤ Real.sin (Real.pi / 360) :=
  Real.sin_nonneg_of_nonneg_of_le_pi (by positivity) (by nlinarith [Real.pi_pos])

/-- the small angle pi/360 has sine at most one half. -/
theorem c5_sin_small_le : Real.sin (Real.pi / 360) ≤ 1 / 2 := by
  have h1 : Real.sin (Real.pi / 360) ≤ Real.pi / 360 := Real.sin_le (by positivity)
  have h2 : Real.pi ≤ 4 := Real.pi_le_four
  linarith

/-- the cosine of the Sirius declination is at least one half. -/
theorem c5_cos_dec_ge : 1 / 2 ≤ Real.cos c5DecRad := by
  have hneg : Real.cos c5DecRad = Real.cos (-c5DecRad) := (Real.cos_neg c5DecRad).symm
  rw [hneg]
  rw [← Real.cos_pi_div_three]
  apply Real.cos_le_cos_of_nonneg_of_le_pi
  · show 0 ≤ -c5DecRad
    unfold c5DecRad
    nlinarith [Real.pi_pos]
  · nlinarith [Real.pi_pos]
  · show -c5DecRad ≤ Real.pi / 3
    unfold c5DecRad
    nlinarith [Real.pi_pos]

/-- the required hour-angle cosine is nonpositive. -/
theorem c5_arg_nonpos : c5Arg ≤ 0 := by
  unfold c5Arg
  apply div_nonpos_of_nonpos_of_nonneg
  · linarith [c5_sin_small_nonneg]
  · linarith [c5_cos_dec_pos]

/-- the required hour-angle cosine is at least -1 (it is a valid cosine). -/
theorem c5_arg_ge : -1 ≤ c5Arg := by
  unfold c5Arg
  have hle : Real.sin (Real.pi / 360) ≤ Real.cos c5DecRad :=
    le_trans c5_sin_small_le c5_cos_dec_ge
  have h1 : Real.sin (Real.pi / 360) / Real.cos c5DecRad ≤ 1 :=
    (div_le_one c5_cos_dec_pos).mpr hle
  rw [neg_div]
  linarith

/-- the cosine of the constructed hour angle is exactly c5Arg. -/
theorem c5_cos_ha : Real.cos (c5HaDeg * Real.pi / 180) = c5Arg := by
  have h : c5HaDeg * Real.pi / 180 = Real.arccos c5Arg := by
    unfold c5HaDeg
    field_simp
  rw [h]
  exact Real.cos_arccos c5_arg_ge (le_trans c5_arg_nonpos zero_le_one)

/-- the constructed hour angle is at least 90 degrees. -/
theorem c5_ha_ge : 90 ≤ c5HaDeg := by
  have h1 : Real.pi / 2 ≤ Real.arccos c5Arg := by
    rw [Real.arccos_eq_pi_div_two_sub_arcsin]
    have h2 := Real.arcsin_nonpos.mpr c5_arg_nonpos
    linarith
  unfold c5HaDeg
  rw [le_div_iff₀ Real.pi_pos]
  nlinarith [Real.pi_pos]

/-- the constructed hour angle is at most 180 degrees. -/
theorem c5_ha_le : c5HaDeg ≤ 180 := by
  have h1 : Real.arccos c5Arg ≤ Real.pi := Real.arccos_le_pi c5Arg
  unfold c5HaDeg
  rw [div_le_iff₀ Real.pi_pos]
  nlinarith [Real.pi_pos]

/-- the local sidereal time at c5Location at the J2000.0 epoch. -/
theorem c5_lst : calculateLocalSiderealTime c5Location.longitude j2000Noon =
    101.28715 + c5HaDeg := by
  unfold calculateLocalSiderealTime
  have hjd : ((dateToJulianDay j2000Noon : ℚ) : ℝ) = 2451545 := by
    rw [dateToJulianDay_j2000_aux]; norm_num
  rw [hjd]
  norm_num
  have hgmst : normalizeAngle ((28046061837 : ℝ) / 100000000) = 28046061837 / 100000000 :=
    normalizeAngle_eq_self (by norm_num) (by norm_num)
  rw [hgmst]
  have hlon : c5Location.longitude = 101.28715 + c5HaDeg - 280.46061837 := rfl
  rw [hlon]
  have harg : (28046061837 : ℝ) / 100000000 + (101.28715 + c5HaDeg - 280.46061837) =
      2025743 / 20000 + c5HaDeg := by norm_num
  rw [harg]
  exact normalizeAngle_eq_self (by linarith [c5_ha_ge]) (by linarith [c5_ha_le])

/-- the altitude sine at c5Location is exactly -sin(pi/360). -/
theorem c5_sinAlt : Real.cos c5DecRad * c5Arg = -Real.sin (Real.pi / 360) := by
  unfold c5Arg
  field_simp [ne_of_gt c5_cos_dec_pos]
  ring

/-- arcsin inverts the small sine exactly. -/
theorem c5_arcsin : Real.arcsin (-Real.sin (Real.pi / 360)) = -(Real.pi / 360) := by
  rw [← Real.sin_neg, Real.arcsin_sin]
  · linarith [Real.pi_pos]
  · nlinarith [Real.pi_pos]

/-- the computed altitude of Sirius at c5Location at the J2000.0 epoch is
exactly -0.5 degrees. -/
theorem c5_altitude :
    (celestialToHorizontal ⟨(siriusStar.ra : ℝ), (siriusStar.dec : ℝ)⟩ c5Location
      j2000Noon).altitude = -0.5 := by
  have hra : ((siriusStar.ra : ℚ) : ℝ) = 101.28715 := by
    norm_num [siriusStar]
  have hdec : ((siriusStar.dec : ℚ) : ℝ) * Real.pi / 180 = c5DecRad := by
    unfold c5DecRad
    norm_num [siriusStar]
  simp only [celestialToHorizontal, hra, hdec]
  rw [c5_lst]
  have hlat0 : c5Location.latitude = 0 := rfl
  rw [hlat0]
  have hha : (101.28715 + c5HaDeg - 101.28715 : ℝ) = c5HaDeg := by ring
  rw [hha]
  have hlat : (0 : ℝ) * Real.pi / 180 = 0 := by ring
  rw [hlat, Real.sin_zero, Real.cos_zero, c5_cos_ha]
  have hsum : Real.sin c5DecRad * 0 + Real.cos c5DecRad * 1 * c5Arg =
      -Real.sin (Real.pi / 360) := by
    rw [show Real.sin c5DecRad * 0 + Real.cos c5DecRad * 1 * c5Arg =
        Real.cos c5DecRad * c5Arg from by ring, c5_sinAlt]
  rw [hsum, c5_arcsin]
  field_simp
  ring

/-! Membership characterizations of the three filtering loops. -/

/-- a star is kept by the getVisibleStars loop iff it is in the iterated
list, passes the magnitude filter, and is above the horizon. -/
theorem mem_visibleStarsAux (location : GeolocationCoords) (maxMagnitude : ℚ)
    (timestamp : DateUTC) :
    ∀ (l : List Star) (st : Star),
    st ∈ visibleStarsAux location maxMagnitude timestamp l ↔
      st ∈ l ∧ ¬ st.magnitude > maxMagnitude ∧ isAboveHorizon st location timestamp := by
  intro l
  induction l with
  | nil => intro st; simp [visibleStarsAux]
  | cons x xs ih =>
    intro st
    unfold visibleStarsAux
    split_ifs with h1 h2
    · rw [ih]
      constructor
      · rintro ⟨hm, hmag, hab⟩
        exact ⟨List.mem_cons_of_mem _ hm, hmag, hab⟩
      · rintro ⟨hm, hmag, hab⟩
        rcases List.mem_cons.mp hm with rfl | hm2
        · exact absurd h1 hmag
        · exact ⟨hm2, hmag, hab⟩
    · constructor
      · intro hmem
        rcases List.mem_cons.mp hmem with rfl | hm2
        · exact ⟨List.mem_cons_self _ _, h1, h2⟩
        · obtain ⟨a, b, c⟩ := (ih st).mp hm2
          exact ⟨List.mem_cons_of_mem _ a, b, c⟩
      · rintro ⟨hm, hmag, hab⟩
        rcases List.mem_cons.mp hm with rfl | hm2
        · exact List.mem_cons_self _ _
        · exact List.mem_cons_of_mem _ ((ih st).mpr ⟨hm2, hmag, hab⟩)
    · rw [ih]
      constructor
      · rintro ⟨hm, hmag, hab⟩
        exact ⟨List.mem_cons_of_mem _ hm, hmag, hab⟩
      · rintro ⟨hm, hmag, hab⟩
        rcases List.mem_cons.mp hm with rfl | hm2
        · exact absurd hab h2
        · exact ⟨hm2, hmag, hab⟩

/-- membership in the sorted getVisibleStars result. -/
theorem mem_visibleStarsList (s : CatalogState) (location : GeolocationCoords)
    (maxMagnitude : ℚ) (timestamp : DateUTC) (st : Star) :
    st ∈ visibleStarsList s location maxMagnitude timestamp ↔
      st ∈ mapValues s.stars ∧ ¬ st.magnitude > maxMagnitude ∧
        isAboveHorizon st location timestamp := by
  unfold visibleStarsList
  rw [List.mem_insertionSort]
  exact mem_visibleStarsAux location maxMagnitude timestamp (mapValues s.stars) st

/-- a star is kept by the getStarsInView loop iff it is in the iterated list,
passes the magnitude filter, and its angular distance comparison succeeds. -/
theorem mem_starsInViewAux (centerCoordinate : CelestialCoordinate) (maxDistance : ℝ)
    (maxMagnitude : ℚ) :
    ∀ (l : List Star) (st : Star),
    st ∈ starsInViewAux centerCoordinate maxDistance maxMagnitude l ↔
      st ∈ l ∧ ¬ st.magnitude > maxMagnitude ∧
        jsLe (calculateAngularDistance ⟨(st.ra : ℝ), (st.dec : ℝ)⟩ centerCoordinate)
          maxDistance := by
  intro l
  induction l with
  | nil => intro st; simp [starsInViewAux]
  | cons x xs ih =>
    intro st
    unfold starsInViewAux
    split_ifs with h1 h2
    · rw [ih]
      constructor
      · rintro ⟨hm, hmag, hd⟩
        exact ⟨List.mem_cons_of_mem _ hm, hmag, hd⟩
      · rintro ⟨hm, hmag, hd⟩
        rcases List.mem_cons.mp hm with rfl | hm2
        · exact absurd h1 hmag
        · exact ⟨hm2, hmag, hd⟩
    · constructor
      · intro hmem
        rcases List.mem_cons.mp hmem with rfl | hm2
        · exact ⟨List.mem_cons_self _ _, h1, h2⟩
        · obtain ⟨a, b, c⟩ := (ih st).mp hm2
          exact ⟨List.mem_cons_of_mem _ a, b, c⟩
      · rintro ⟨hm, hmag, hd⟩
        rcases List.mem_cons.mp hm with rfl | hm2
        · exact List.mem_cons_self _ _
        · exact List.mem_cons_of_mem _ ((ih st).mpr ⟨hm2, hmag, hd⟩)
    · rw [ih]
      constructor
      · rintro ⟨hm, hmag, hd⟩
        exact ⟨List.mem_cons_of_mem _ hm, hmag, hd⟩
      · rintro ⟨hm, hmag, hd⟩
        rcases List.mem_cons.mp hm with rfl | hm2
        · exact absurd hd h2
        · exact ⟨hm2, hmag, hd⟩

/-- an entry is kept by the getVisiblePlanets loop iff its planet is in the
iterated list, its fields are the computed position and horizontal
coordinates, and the computed altitude is strictly above -0.5. -/
theorem mem_visiblePlanetsAux (location : GeolocationCoords) (timestamp : DateUTC) :
    ∀ (l : List Planet) (vp : VisiblePlanet),
    vp ∈ visiblePlanetsAux location timestamp l ↔
      vp.planet ∈ l ∧ vp.position = calculatePlanetPosition vp.planet timestamp ∧
        vp.horizontal = celestialToHorizontal vp.position location timestamp ∧
        vp.horizontal.altitude > -0.5 := by
  intro l
  induction l with
  | nil => intro vp; simp [visiblePlanetsAux]
  | cons x xs ih =>
    intro vp
    simp only [visiblePlanetsAux]
    split_ifs with h1
    · constructor
      · intro hmem
        rcases List.mem_cons.mp hmem with heq | hm2
        · subst heq
          exact ⟨List.mem_cons_self _ _, rfl, rfl, h1⟩
        · obtain ⟨a, b, c, d⟩ := (ih vp).mp hm2
          exact ⟨List.mem_cons_of_mem _ a, b, c, d⟩
      · rintro ⟨hm, hpos, hhor, halt⟩
        rcases List.mem_cons.mp hm with heq | hm2
        · have hvp : vp = ⟨x, calculatePlanetPosition x timestamp,
              celestialToHorizontal (calculatePlanetPosition x timestamp) location
                timestamp⟩ := by
            cases vp with
            | mk p pos hor =>
              replace heq : p = x := heq
              replace hpos : pos = calculatePlanetPosition p timestamp := hpos
              replace hhor : hor = celestialToHorizontal pos location timestamp := hhor
              subst heq
              subst hpos
              subst hhor
              rfl
          rw [hvp]
          exact List.mem_cons_self _ _
        · exact List.mem_cons_of_mem _ ((ih vp).mpr ⟨hm2, hpos, hhor, halt⟩)
    · constructor
      · intro hmem
        obtain ⟨a, b, c, d⟩ := (ih vp).mp hmem
        exact ⟨List.mem_cons_of_mem _ a, b, c, d⟩
      · rintro ⟨hm, hpos, hhor, halt⟩
        rcases List.mem_cons.mp hm with heq | hm2
        · exfalso
          apply h1
          rw [← heq, ← hpos, ← hhor]
          exact halt
        · exact (ih vp).mpr ⟨hm2, hpos, hhor, halt⟩

/-! The reduce of getStatistics selects a minimum. -/

/-- the reduce callback keeps an element of the list (or the seed) and its
magnitude is a lower bound of the seed and all list elements. -/
theorem foldl_brightest_spec :
    ∀ (l : List Star) (init : Star),
    (l.foldl (fun brightest star =>
        if star.magnitude < brightest.magnitude then star else brightest) init = init ∨
      l.foldl (fun brightest star =>
        if star.magnitude < brightest.magnitude then star else brightest) init ∈ l) ∧
    (l.foldl (fun brightest star =>
        if star.magnitude < brightest.magnitude then star else brightest) init).magnitude ≤
      init.magnitude ∧
    ∀ st ∈ l, (l.foldl (fun brightest star =>
        if star.magnitude < brightest.magnitude then star else brightest) init).magnitude ≤
      st.magnitude := by
  intro l
  induction l with
  | nil => intro init; simp
  | cons x xs ih =>
    intro init
    simp only [List.foldl_cons]
    obtain ⟨hmem, hle, hmin⟩ := ih (if x.magnitude < init.magnitude then x else init)
    have hstep_le : (if x.magnitude < init.magnitude then x else init).magnitude ≤
        init.magnitude := by
      split_ifs with h
      · exact le_of_lt h
      · exact le_refl _
    have hstep_le_x : (if x.magnitude < init.magnitude then x else init).magnitude ≤
        x.magnitude := by
      split_ifs with h
      · exact le_refl _
      · exact le_of_not_lt h
    refine ⟨?_, le_trans hle hstep_le, ?_⟩
    · rcases hmem with heq | hin
      · rw [heq]
        split_ifs with h
        · exact Or.inr (List.mem_cons_self _ _)
        · exact Or.inl rfl
      · exact Or.inr (List.mem_cons_of_mem _ hin)
    · intro st hst
      rcases List.mem_cons.mp hst with rfl | hst2
      · exact le_trans hle hstep_le_x
      · exact hmin st hst2

/-- on the shipped catalog the reduce selects Sirius (magnitude -1.46). -/
theorem brightest_initState : (getStatistics initState).brightestStar = some siriusStar := by
  show brightestOf (mapValues initState.stars) = some siriusStar
  rw [initState_starValues]
  norm_num [brightestOf, starData, List.foldl_cons, List.foldl_nil, siriusStar]


/-! The claims. -/

/-- C1: the claim states that celestialToHorizontal returns a stable,
non-NaN conventional azimuth whenever cos(lat) times cos(altitude) is zero
(observer at a pole or object at zenith).  The code does not: at the north
pole, with a star at ra = 0, dec = 0 and the J2000.0 timestamp, the cosAz
numerator and denominator are both exactly zero, 0/0 is NaN, the
Math.max/Math.min clamp passes NaN through, and Math.acos of NaN is NaN, so
the returned azimuth is NaN while the altitude (0 degrees, well above the
horizon) shows the object is in view. -/
theorem C1_pole_azimuth_nan :
    (celestialToHorizontal zeroCoord northPoleLocation j2000Noon).altitude = 0 ∧
    (celestialToHorizontal zeroCoord northPoleLocation j2000Noon).azimuth = JSVal.nan := by
  have h90 : (90 : ℝ) * Real.pi / 180 = Real.pi / 2 := by ring
  constructor
  · simp only [celestialToHorizontal, northPoleLocation, zeroCoord, h90]
    norm_num [Real.cos_pi_div_two, Real.sin_pi_div_two, Real.arcsin_zero]
  · simp only [celestialToHorizontal, northPoleLocation, zeroCoord, h90]
    norm_num [Real.cos_pi_div_two, Real.sin_pi_div_two, Real.arcsin_zero,
      jsDiv, jsMin, jsMax, jsAcosV, jsMulR, jsSubL, ite_self]

/-- C2: the claim states that calculateAngularDistance clamps the cosine
argument to [-1,1] before acos, making the result always a well-defined
value in [0,180].  The code applies Math.acos to the raw, unclamped
argument.  Over exact reals the argument at identical inputs is exactly 1 —
the very edge of the acos domain, with zero margin for rounding — and the
result is 0; but the moment the argument exceeds 1 the modelled Math.acos
returns NaN.  1.0000000000000002 is the actual IEEE-754 double value of
sin(dec)^2 + cos(dec)^2 for the catalog star Phecda (dec 53.69476), so the
shipped code returns NaN for the distance of Phecda to itself. -/
theorem C2_angular_distance_no_clamp :
    (∀ c : CelestialCoordinate, angularDistanceArg c c = 1) ∧
    (∀ c : CelestialCoordinate, calculateAngularDistance c c = JSVal.num 0) ∧
    jsAcosR (1.0000000000000002) = JSVal.nan := by
  have harg : ∀ c : CelestialCoordinate, angularDistanceArg c c = 1 := by
    intro c
    unfold angularDistanceArg
    simp only [sub_self, Real.cos_zero, mul_one]
    have h := Real.sin_sq_add_cos_sq (c.dec * Real.pi / 180)
    nlinarith [h]
  refine ⟨harg, ?_, ?_⟩
  · intro c
    unfold calculateAngularDistance
    rw [harg c]
    unfold jsAcosR
    rw [if_pos (by norm_num)]
    unfold jsMulR
    rw [Real.arccos_one]
    norm_num
  · unfold jsAcosR
    rw [if_neg]
    push_neg
    intro _
    norm_num

/-- C3 (counterexample): the claim states that every query, including
getStar, getConstellations, getPlanets and getStatistics, throws the
not-initialized error before initialization.  On a freshly constructed
(uninitialized) service these four return ordinary data instead. -/
theorem C3_counterexample :
    getStar emptyCatalogState ("hip_32349") = Except.ok none ∧
    getConstellations emptyCatalogState = Except.ok [] ∧
    getPlanets emptyCatalogState = Except.ok [] ∧
    getStatistics emptyCatalogState = ⟨0, 0, 0, none⟩ :=
  ⟨rfl, rfl, rfl, rfl⟩

/-- C3 (amended): only getVisibleStars, getStarsInView, searchStars and
getVisiblePlanets check initialization and throw the not-initialized error;
getStar, getConstellations, getConstellation, getPlanets, getPlanet and
getStatistics perform no check and simply return lookups over the current
(empty) collections. -/
theorem C3_selective_guard :
    ∀ (s : CatalogState) (location : GeolocationCoords) (maxMagnitude : ℚ)
      (timestamp : DateUTC) (center : CelestialCoordinate) (fov : ℝ) (query id : String),
    s.isInitialized = false →
    getVisibleStars s location maxMagnitude timestamp = Except.error notInitializedMsg ∧
    getStarsInView s center fov maxMagnitude = Except.error notInitializedMsg ∧
    searchStars s query = Except.error notInitializedMsg ∧
    getVisiblePlanets s location timestamp = Except.error notInitializedMsg ∧
    getStar s id = Except.ok (mapGet s.stars id) ∧
    getConstellations s = Except.ok (mapValues s.constellations) ∧
    getConstellation s id = Except.ok (mapGet s.constellations id) ∧
    getPlanets s = Except.ok (mapValues s.planets) ∧
    getPlanet s id = Except.ok (mapGet s.planets id) ∧
    getStatistics s = ⟨s.stars.length, s.constellations.length, s.planets.length,
      brightestOf (mapValues s.stars)⟩ := by
  intro s location maxMagnitude timestamp center fov query id h
  refine ⟨?_, ?_, ?_, ?_, rfl, rfl, rfl, rfl, rfl, rfl⟩
  · unfold getVisibleStars
    rw [h]
    rfl
  · unfold getStarsInView
    rw [h]
    rfl
  · unfold searchStars
    rw [h]
    rfl
  · unfold getVisiblePlanets
    rw [h]
    rfl

/-- C3 (witness): the amended guard behaviour at the freshly constructed
state. -/
theorem C3_selective_guard_witness :
    getVisibleStars emptyCatalogState northPoleLocation 4 j2000Noon =
      Except.error notInitializedMsg ∧
    getStarsInView emptyCatalogState zeroCoord 90 4 = Except.error notInitializedMsg ∧
    searchStars emptyCatalogState ("") = Except.error notInitializedMsg ∧
    getVisiblePlanets emptyCatalogState northPoleLocation j2000Noon =
      Except.error notInitializedMsg ∧
    getStar emptyCatalogState ("hip_677") =
      Except.ok (mapGet emptyCatalogState.stars ("hip_677")) ∧
    getConstellations emptyCatalogState = Except.ok (mapValues emptyCatalogState.constellations) ∧
    getConstellation emptyCatalogState ("orion") =
      Except.ok (mapGet emptyCatalogState.constellations ("orion")) ∧
    getPlanets emptyCatalogState = Except.ok (mapValues emptyCatalogState.planets) ∧
    getPlanet emptyCatalogState ("mars") = Except.ok (mapGet emptyCatalogState.planets ("mars")) ∧
    getStatistics emptyCatalogState = ⟨emptyCatalogState.stars.length,
      emptyCatalogState.constellations.length, emptyCatalogState.planets.length,
      brightestOf (mapValues emptyCatalogState.stars)⟩ :=
  C3_selective_guard emptyCatalogState northPoleLocation 4 j2000Noon zeroCoord 90 ("")
    ("hip_677") rfl

/-- C4 (counterexample): the claim states that a constellation referencing a
non-existent star id makes construction raise a ValidationError.  Loading a
catalog whose only constellation references the id ghost_star, which no star
has, succeeds (Except.ok) and stores the dangling constellation, retrievable
by a later query, while the referenced star does not exist. -/
theorem C4_counterexample :
    initCatalogWith orphanStarData emptyPlanetData emptyCatalogState =
      Except.ok orphanState ∧
    getConstellation orphanState ("orphan") = Except.ok (some orphanConstellation) ∧
    orphanConstellation.stars = [("ghost_star")] ∧
    mapGet orphanState.stars ("ghost_star") = none :=
  ⟨rfl, rfl, rfl, rfl⟩

/-- C4 (amended): catalog construction performs no referential validation at
all: for every catalog data set, with or without dangling star references,
initialize stores the entries as given and completes successfully; no
ValidationError exists in the code. -/
theorem C4_no_validation :
    ∀ (data : StarData) (pdata : PlanetData) (s : CatalogState),
    ∃ s2 : CatalogState, initCatalogWith data pdata s = Except.ok s2 :=
  fun _ _ _ => ⟨_, rfl⟩

/-- C5 (counterexample): the claim states that every body whose computed
altitude is at or above -0.5 degrees is returned by the visible-bodies
queries.  At c5Location and the J2000.0 timestamp the computed altitude of
the catalog star Sirius is exactly -0.5 degrees, Sirius passes the default
magnitude filter, yet getVisibleStars omits it, because the code keeps only
bodies with altitude strictly greater than -0.5. -/
theorem C5_counterexample :
    (celestialToHorizontal ⟨(siriusStar.ra : ℝ), (siriusStar.dec : ℝ)⟩ c5Location
      j2000Noon).altitude = -0.5 ∧
    siriusStar ∈ mapValues initState.stars ∧
    ¬ siriusStar.magnitude > 4 ∧
    getVisibleStars initState c5Location 4 j2000Noon =
      Except.ok (visibleStarsList initState c5Location 4 j2000Noon) ∧
    siriusStar ∉ visibleStarsList initState c5Location 4 j2000Noon := by
  refine ⟨c5_altitude, ?_, by norm_num [siriusStar], rfl, ?_⟩
  · rw [initState_starValues]
    repeat first
      | exact List.mem_cons_self _ _
      | apply List.mem_cons_of_mem
  · intro hmem
    obtain ⟨-, -, hab⟩ :=
      (mem_visibleStarsList initState c5Location 4 j2000Noon siriusStar).mp hmem
    unfold isAboveHorizon at hab
    rw [c5_altitude] at hab
    exact lt_irrefl _ hab

/-- C5 (amended): the visible-bodies queries retain exactly the bodies whose
computed altitude is strictly greater than -0.5 degrees (and, for stars,
whose magnitude passes the filter); a body at exactly -0.5 degrees is
excluded. -/
theorem C5_strict_horizon :
    ∀ (s : CatalogState) (location : GeolocationCoords) (maxMagnitude : ℚ)
      (timestamp : DateUTC) (st : Star) (vp : VisiblePlanet),
    (st ∈ visibleStarsList s location maxMagnitude timestamp ↔
      st ∈ mapValues s.stars ∧ ¬ st.magnitude > maxMagnitude ∧
        (celestialToHorizontal ⟨(st.ra : ℝ), (st.dec : ℝ)⟩ location
          timestamp).altitude > -0.5) ∧
    (vp ∈ visiblePlanetsList s location timestamp ↔
      vp.planet ∈ mapValues s.planets ∧
        vp.position = calculatePlanetPosition vp.planet timestamp ∧
        vp.horizontal = celestialToHorizontal vp.position location timestamp ∧
        vp.horizontal.altitude > -0.5) := by
  intro s location maxMagnitude timestamp st vp
  constructor
  · simpa [isAboveHorizon] using
      mem_visibleStarsList s location maxMagnitude timestamp st
  · unfold visiblePlanetsList
    exact mem_visiblePlanetsAux location timestamp (mapValues s.planets) vp

/-- C6: dateToJulianDay maps the UTC timestamp 2000-01-01T12:00:00Z to
exactly 2451545.0, the J2000.0 epoch. -/
theorem C6_julian_day_j2000 : dateToJulianDay j2000Noon = 2451545.0 := by
  rw [dateToJulianDay_j2000_aux]
  norm_num

/-- C7: for eccentricity 0 the Kepler solver is the identity on the mean
anomaly: the first Newton-Raphson step has residual exactly zero, the loop
breaks, and the degree/radian round trip cancels exactly. -/
theorem C7_kepler_identity : ∀ M : ℝ, solveKeplerEquation M 0 = M := by
  intro M
  unfold solveKeplerEquation
  show keplerLoop 0 (M * Real.pi / 180) 10 (M * Real.pi / 180) * 180 / Real.pi = M
  have hloop : keplerLoop 0 (M * Real.pi / 180) 10 (M * Real.pi / 180) =
      M * Real.pi / 180 := by
    show keplerLoop 0 (M * Real.pi / 180) (9 + 1) (M * Real.pi / 180) = M * Real.pi / 180
    rw [keplerLoop]
    norm_num
  rw [hloop]
  field_simp

/-- C8 (counterexample): the claim states that star-returning queries order
equal-magnitude stars by id.  In the shipped catalog Mizar (hip_65378) and
Caph (hip_3179) both have magnitude 2.27; searchStars with the empty query
returns every star, sorted, and its (duplicate-free) result lists Mizar
before Caph even though Caph has the smaller id: ties keep catalog insertion
order, not id order. -/
theorem C8_counterexample :
    searchStars initState ("") = Except.ok (searchStarsList initState ("")) ∧
    List.Sublist [mizarStar, caphStar] (searchStarsList initState ("")) ∧
    (searchStarsList initState ("")).Nodup ∧
    mizarStar.magnitude = caphStar.magnitude ∧
    caphStar.id < mizarStar.id ∧
    mizarStar ≠ caphStar := by
  refine ⟨rfl, ?_, ?_, by with_unfolding_all decide, by with_unfolding_all decide,
    by decide⟩
  · rw [searchStarsList_empty_query, initState_starValues]
    apply List.pair_sublist_insertionSort
    · show magLE mizarStar caphStar
      unfold magLE
      with_unfolding_all decide
    · repeat first
        | exact List.nil_sublist _
        | apply List.Sublist.cons₂
        | apply List.Sublist.cons
  · rw [searchStarsList_empty_query, initState_starValues]
    exact ((List.perm_insertionSort magLE starData).nodup_iff).mpr (by decide)

/-- C8 (amended): every star-returning query (getVisibleStars,
getStarsInView, searchStars) sorts its result by non-decreasing magnitude
with a stable sort: stars of equal magnitude (more generally, any pair
already in comparator order) keep the relative order they had in the
filtered catalog iteration; there is no id tie-break. -/
theorem C8_sorted_stable :
    ∀ (s : CatalogState) (location : GeolocationCoords) (maxMagnitude : ℚ)
      (timestamp : DateUTC) (center : CelestialCoordinate) (fov : ℝ) (query : String),
    List.Sorted magLE (visibleStarsList s location maxMagnitude timestamp) ∧
    List.Sorted magLE (starsInViewList s center fov maxMagnitude) ∧
    List.Sorted magLE (searchStarsList s query) ∧
    (∀ a b : Star, magLE a b →
      List.Sublist [a, b] (visibleStarsAux location maxMagnitude timestamp
        (mapValues s.stars)) →
      List.Sublist [a, b] (visibleStarsList s location maxMagnitude timestamp)) ∧
    (∀ a b : Star, magLE a b →
      List.Sublist [a, b] (starsInViewAux center (fov / 2) maxMagnitude
        (mapValues s.stars)) →
      List.Sublist [a, b] (starsInViewList s center fov maxMagnitude)) ∧
    (∀ a b : Star, magLE a b →
      List.Sublist [a, b] ((mapValues s.stars).filter
        (searchMatches (trimChars (lowerChars query.data)))) →
      List.Sublist [a, b] (searchStarsList s query)) := by
  intro s location maxMagnitude timestamp center fov query
  refine ⟨List.sorted_insertionSort magLE _, List.sorted_insertionSort magLE _,
    List.sorted_insertionSort magLE _, ?_, ?_, ?_⟩
  · intro a b hab hsub
    exact List.pair_sublist_insertionSort hab hsub
  · intro a b hab hsub
    exact List.pair_sublist_insertionSort hab hsub
  · intro a b hab hsub
    exact List.pair_sublist_insertionSort hab hsub

/-- C8 (witness): the stability clause applied to the tied pair Mizar and
Caph of the real catalog, through the searchStars query with the empty
query string. -/
theorem C8_sorted_stable_witness :
    List.Sublist [mizarStar, caphStar] (searchStarsList initState ("")) := by
  apply (C8_sorted_stable initState northPoleLocation 4 j2000Noon zeroCoord 90
    ("")).2.2.2.2.2 mizarStar caphStar
  · show magLE mizarStar caphStar
    unfold magLE
    with_unfolding_all decide
  · rw [show trimChars (lowerChars (("").data)) = [] from rfl]
    rw [List.filter_eq_self.mpr (fun a _ => searchMatches_nil a)]
    rw [initState_starValues]
    repeat first
      | exact List.nil_sublist _
      | apply List.Sublist.cons₂
      | apply List.Sublist.cons

/-- C9: normalizeAngle always lands in [0, 360) and is 360-periodic:
normalizeAngle (x + 360 k) = normalizeAngle x for every real x and integer
k. -/
theorem C9_normalize_angle :
    ∀ (x : ℝ) (k : ℤ),
    (0 ≤ normalizeAngle x ∧ normalizeAngle x < 360) ∧
    normalizeAngle (x + 360 * k) = normalizeAngle x :=
  fun x k => ⟨normalizeAngle_bounds x, normalizeAngle_period x k⟩

/-- C10: getStatistics reports the sizes of the three collections, and its
brightestStar is null exactly when the star collection is empty and
otherwise is a star of the collection of minimal magnitude. -/
theorem C10_statistics :
    ∀ s : CatalogState,
    (getStatistics s).totalStars = (mapValues s.stars).length ∧
    (getStatistics s).totalConstellations = (mapValues s.constellations).length ∧
    (getStatistics s).totalPlanets = (mapValues s.planets).length ∧
    ((getStatistics s).brightestStar = none ↔ mapValues s.stars = []) ∧
    ∀ b : Star, (getStatistics s).brightestStar = some b →
      b ∈ mapValues s.stars ∧ ∀ st ∈ mapValues s.stars, b.magnitude ≤ st.magnitude := by
  intro s
  refine ⟨by simp [getStatistics, mapValues], by simp [getStatistics, mapValues],
    by simp [getStatistics, mapValues], ?_, ?_⟩
  · show brightestOf (mapValues s.stars) = none ↔ mapValues s.stars = []
    cases hmv : mapValues s.stars with
    | nil => simp [brightestOf]
    | cons x xs => simp [brightestOf]
  · intro b hb
    replace hb : brightestOf (mapValues s.stars) = some b := hb
    cases hmv : mapValues s.stars with
    | nil =>
      rw [hmv] at hb
      exact absurd hb (by simp [brightestOf])
    | cons x xs =>
      rw [hmv] at hb
      unfold brightestOf at hb
      obtain ⟨hmem, hle, hmin⟩ := foldl_brightest_spec (x :: xs) x
      have hbe : (x :: xs).foldl (fun brightest star =>
          if star.magnitude < brightest.magnitude then star else brightest) x = b :=
        Option.some_injective _ hb
      rw [hbe] at hmem hmin
      constructor
      · rcases hmem with heq | hin
        · rw [heq]; exact List.mem_cons_self _ _
        · exact hin
      · intro st hst
        exact hmin st hst

/-- C10 (witness): on the shipped catalog the brightest star is Sirius; it
belongs to the catalog, and its magnitude is a lower bound, here checked
against Mizar. -/
theorem C10_statistics_witness :
    (getStatistics initState).brightestStar = some siriusStar ∧
    siriusStar ∈ mapValues initState.stars ∧
    siriusStar.magnitude ≤ mizarStar.magnitude := by
  have hmem : mizarStar ∈ mapValues initState.stars := by
    rw [initState_starValues]
    repeat first
      | exact List.mem_cons_self _ _
      | apply List.mem_cons_of_mem
  have h := (C10_statistics initState).2.2.2.2 siriusStar brightest_initState
  exact ⟨brightest_initState, h.1, h.2 mizarStar hmem⟩

end Stargazer
